import Mathlib

/-!
# Session recording service

A shallow embedding of `recording-api/main.go` (the three HTTP handlers),
`recording-api/session/session.go` (domain model, repository and service
interfaces) and `recording-api/session/mongo/mongo_repository.go` (the MongoDB
repository), followed by theorems about them.

Conventions of the embedding:

* a Go `string` is a Lean `String`; `len(s)` is `s.length`.  The two agree on
  ASCII strings, and every function below that inspects a string rejects any
  string holding a non-ASCII character both in Go and here;
* a Go `int` is a Lean `Int` (the only arithmetic on it is parsing, where the
  64-bit range is checked explicitly);
* `time.Time` is a reading of the clock, a natural number; each call of
  `time.Now()` is one read of the clock of the `World`;
* the MongoDB client is a record of functions over an arbitrary store state,
  and every call made through it is appended to the log of the `World`.
-/

namespace Recording

/-! ## Values shared by the packages -/

/-- Reading of the wall clock (Go `time.Time`). -/
abbrev Time := Nat

/-- The driver's `primitive.ObjectID`, a `[12]byte`. -/
structure ObjectID where
  bytes : List (Fin 256)
  size : bytes.length = 12
deriving DecidableEq

/-- The zero value `primitive.NilObjectID`. -/
def NilObjectID : ObjectID := ⟨List.replicate 12 0, rfl⟩

/-- Go `encoding/hex.fromHexChar`: the value of one hexadecimal digit. -/
def fromHexChar (c : Char) : Option (Fin 16) :=
  if '0' ≤ c ∧ c ≤ '9' then some (Fin.ofNat (c.toNat - '0'.toNat))
  else if 'a' ≤ c ∧ c ≤ 'f' then some (Fin.ofNat (c.toNat - 'a'.toNat + 10))
  else if 'A' ≤ c ∧ c ≤ 'F' then some (Fin.ofNat (c.toNat - 'A'.toNat + 10))
  else none

/-- The byte `(a << 4) | b` built from two hexadecimal digits. -/
def hexByte (a b : Fin 16) : Fin 256 := ⟨a.val * 16 + b.val, by omega⟩

/-- Go `encoding/hex.Decode`: pairs of digits become bytes; a character that is
not a hexadecimal digit, or an odd length, is an error. -/
def hexDecode : List Char → Except String (List (Fin 256))
  | [] => .ok []
  | [p] =>
    match fromHexChar p with
    | none => .error "encoding/hex: invalid byte"
    | some _ => .error "encoding/hex: odd length hex string"
  | p :: q :: rest =>
    match fromHexChar p with
    | none => .error "encoding/hex: invalid byte"
    | some a =>
      match fromHexChar q with
      | none => .error "encoding/hex: invalid byte"
      | some b =>
        match hexDecode rest with
        | .error e => .error e
        | .ok bs => .ok (hexByte a b :: bs)

/-- Go `copy(oid[:], b)` into a zeroed `[12]byte`. -/
def copy12 (b : List (Fin 256)) : ObjectID :=
  ⟨b.take 12 ++ List.replicate (12 - b.length) 0, by
    simp only [List.length_append, List.length_take, List.length_replicate]; omega⟩

/-- The driver's `primitive.ObjectIDFromHex`: exactly 24 hexadecimal digits. -/
def ObjectIDFromHex (s : String) : Except String ObjectID :=
  if s.length ≠ 24 then .error "the provided hex string is not a valid ObjectID"
  else
    match hexDecode s.data with
    | .error e => .error e
    | .ok b => .ok (copy12 b)

/-- Go `encoding/hex.hextable`. -/
def hextable : List Char := "0123456789abcdef".data

/-- Go `encoding/hex.EncodeToString`. -/
def hexEncode : List (Fin 256) → List Char
  | [] => []
  | v :: rest =>
    hextable.getD (v.val / 16) '0' :: hextable.getD (v.val % 16) '0' :: hexEncode rest

/-- The driver's `ObjectID.Hex`. -/
def ObjectID.Hex (id : ObjectID) : String := String.mk (hexEncode id.bytes)

/-- Decimal digits of `strconv.ParseUint` in base 10 (no underscores). -/
def parseDigits : List Char → Nat → Option Nat
  | [], n => some n
  | ch :: rest, n =>
    if '0' ≤ ch ∧ ch ≤ '9' then parseDigits rest (n * 10 + (ch.toNat - '0'.toNat))
    else none

/-- Go `strconv.Atoi` for a 64-bit `int`: an optional sign, then at least one
decimal digit, the value within the range of `int`. -/
def Atoi (s : String) : Except String Int :=
  match s.data with
  | [] => .error "strconv.Atoi: invalid syntax"
  | c :: rest =>
    let neg := decide (c = '-')
    let ds := if c = '-' ∨ c = '+' then rest else c :: rest
    if ds = [] then .error "strconv.Atoi: invalid syntax"
    else
      match parseDigits ds 0 with
      | none => .error "strconv.Atoi: invalid syntax"
      | some un =>
        if neg = false ∧ un ≥ 2 ^ 63 then .error "strconv.Atoi: value out of range"
        else if neg = true ∧ un > 2 ^ 63 then .error "strconv.Atoi: value out of range"
        else .ok (if neg then - (un : Int) else (un : Int))


/-! ## `recording-api/main.go`: data model -/

namespace main

def mongoURI : String := "mongodb://localhost:27027"
def dbName : String := "mydb"
def sessionCollection : String := "sessions"
def eventCollection : String := "events"

structure Session where
  ID : ObjectID
  ClientID : ObjectID
  VisitorID : ObjectID
  LastEventTime : Time
  DurationInSeconds : Int
  CreatedAt : Time
  UpdatedAt : Time
deriving DecidableEq

structure Event where
  ID : ObjectID
  SessionID : ObjectID
  DomEvent : String
  CreatedAt : Time
deriving DecidableEq

end main

/-! ## `recording-api/session/session.go`: data model and interfaces -/

namespace session

structure Session where
  ID : String
  ClientId : String
  VisitorId : String
  LastEventTime : Time
  DurationInSeconds : Int
  CreatedAt : Time
  UpdatedAt : Time
deriving DecidableEq

structure SessionCreationParams where
  ClientId : String
  VisitorId : String
deriving DecidableEq

structure SessionUpdateParams where
  LastEventTime : Time
  DurationInSeconds : Int
deriving DecidableEq

/-- Go types that occur in the method sets of the two interfaces. -/
inductive GoType where
  | string
  | error
  | ptr (name : String)
  | sliceOfPtr (name : String)
deriving DecidableEq

/-- One method of an interface declaration: name, parameter types, result types. -/
structure Method where
  name : String
  params : List GoType
  results : List GoType
deriving DecidableEq

/-- Method set of `type SessionRepository interface`, as declared. -/
def SessionRepository_methods : List Method :=
  [ ⟨"FindById", [.string], [.ptr "Session", .error]⟩,
    ⟨"FindAllByClientId", [.string], [.sliceOfPtr "Session", .error]⟩,
    ⟨"Store", [.ptr "SessionCreationParams"], [.error]⟩,
    ⟨"Update", [.ptr "Session"], [.error]⟩,
    ⟨"Delete", [.string], [.error]⟩ ]

/-- Method set of `type SessionService interface`, as declared. -/
def SessionService_methods : List Method :=
  [ ⟨"FindById", [.string], [.ptr "Session", .error]⟩,
    ⟨"FindAllByClientId", [.string], [.sliceOfPtr "Session", .error]⟩,
    ⟨"Store", [.ptr "Session"], [.error]⟩,
    ⟨"Update", [.ptr "Session"], [.error]⟩,
    ⟨"Delete", [.string], [.error]⟩ ]

/-- Method set of `*SessionServiceImpl`, from the five `func (s *SessionServiceImpl)`
declarations. -/
def SessionServiceImpl_methods : List Method :=
  [ ⟨"FindById", [.string], [.ptr "Session", .error]⟩,
    ⟨"FindAllByClientId", [.string], [.sliceOfPtr "Session", .error]⟩,
    ⟨"Store", [.ptr "Session"], [.error]⟩,
    ⟨"Update", [.ptr "Session"], [.error]⟩,
    ⟨"Delete", [.string], [.error]⟩ ]

/-- Parameter types of the method called `name` in a method set. -/
def paramsOf (ms : List Method) (name : String) : Option (List GoType) :=
  (ms.find? (fun m => m.name = name)).map (fun m => m.params)

/-- Result types of the method called `name` in a method set. -/
def resultsOf (ms : List Method) (name : String) : Option (List GoType) :=
  (ms.find? (fun m => m.name = name)).map (fun m => m.results)

/-- The interface `SessionRepository` as a record of its five methods, each a
function of the repository state `ρ`; a Go `error` is `Option String`, a
pointer result that may be `nil` is an `Option`. -/
structure SessionRepository (ρ : Type) where
  FindById : ρ → String → (Option Session × Option String) × ρ
  FindAllByClientId : ρ → String → (List Session × Option String) × ρ
  Store : ρ → SessionCreationParams → Option String × ρ
  Update : ρ → Session → Option String × ρ
  Delete : ρ → String → Option String × ρ

structure SessionServiceImpl (ρ : Type) where
  repo : SessionRepository ρ

def SessionServiceImpl.FindById {ρ : Type} (s : SessionServiceImpl ρ) (st : ρ) (id : String) :
    (Option Session × Option String) × ρ :=
  s.repo.FindById st id

def SessionServiceImpl.FindAllByClientId {ρ : Type} (s : SessionServiceImpl ρ) (st : ρ)
    (id : String) : (List Session × Option String) × ρ :=
  s.repo.FindAllByClientId st id

-- `SessionServiceImpl.Store` is `return s.repo.Store(session)` with `session *Session`,
-- which hands a `*Session` to a method declared on `*SessionCreationParams`; the call has
-- no typed counterpart here and is described by the method sets above.

def SessionServiceImpl.Update {ρ : Type} (s : SessionServiceImpl ρ) (st : ρ)
    (session : Session) : Option String × ρ :=
  s.repo.Update st session

def SessionServiceImpl.Delete {ρ : Type} (s : SessionServiceImpl ρ) (st : ρ) (id : String) :
    Option String × ρ :=
  s.repo.Delete st id

def NewSessionService {ρ : Type} (repo : SessionRepository ρ) : SessionServiceImpl ρ :=
  ⟨repo⟩

end session

/-! ## `recording-api/session/mongo/mongo_repository.go`: data model -/

namespace repository

structure sessionCreationParamsBoilerplate where
  ClientId : String
  VisitorId : String
  LastEventTime : Time
  DurationInSeconds : Int
  CreatedAt : Time
  UpdatedAt : Time
deriving DecidableEq

end repository

/-! ## The MongoDB client and the world a handler runs in -/

/-- A `bson.M` filter as built by the handlers: keys with `ObjectID` values. -/
abbrev M := List (String × ObjectID)

/-- Go map assignment `m[k] = v`. -/
def M.set (m : M) (k : String) (v : ObjectID) : M :=
  if m.any (fun kv => kv.1 = k) then m.map (fun kv => if kv.1 = k then (k, v) else kv)
  else m ++ [(k, v)]

/-- A value handed to `InsertOne` as its `document interface{}` argument. -/
inductive Document where
  | session (s : main.Session)
  | event (e : main.Event)
  | boilerplate (b : repository.sessionCreationParamsBoilerplate)
deriving DecidableEq

/-- What iterating a `*mongo.Cursor` yields: for each `Next` the outcome of
`Decode` into a `Session`, and the final `cursor.Err()`. -/
structure Cursor where
  docs : List (Except String main.Session)
  err : Option String

/-- One call made through the MongoDB client. -/
inductive Call where
  | Find (database collection : String) (filter : M) (limit skip : Int)
  | InsertOne (database collection : String) (document : Document)
deriving DecidableEq

/-- The part of `*mongo.Client` the program uses, over a store state `σ`:
`Database(d).Collection(c).Find(ctx, filter, SetLimit(l).SetSkip(s))` and
`Database(d).Collection(c).InsertOne(ctx, doc)`, the latter returning the
`InsertedID` or an error. -/
structure Client (σ : Type) where
  Find : σ → String → String → M → Int → Int → Except String Cursor × σ
  InsertOne : σ → String → String → Document → Except String ObjectID × σ

/-- Everything outside a handler: the store, the clock (`clock n` is what the
`n`-th call of `time.Now()` returns), the number of clock reads so far, and the
log of calls made to the store. -/
structure World (σ : Type) where
  store : σ
  clock : Nat → Time
  reads : Nat
  calls : List Call

/-- Go `time.Now()`. -/
def World.Now {σ : Type} (w : World σ) : Time × World σ :=
  (w.clock w.reads, { w with reads := w.reads + 1 })

/-- A logged `Find` on the client. -/
def World.Find {σ : Type} (client : Client σ) (w : World σ) (database collection : String)
    (filter : M) (limit skip : Int) : Except String Cursor × World σ :=
  let r := client.Find w.store database collection filter limit skip
  (r.1, { w with store := r.2, calls := w.calls ++ [Call.Find database collection filter limit skip] })

/-- A logged `InsertOne` on the client. -/
def World.InsertOne {σ : Type} (client : Client σ) (w : World σ) (database collection : String)
    (document : Document) : Except String ObjectID × World σ :=
  let r := client.InsertOne w.store database collection document
  (r.1, { w with store := r.2, calls := w.calls ++ [Call.InsertOne database collection document] })

/-! ## gin: request context and responses -/

/-- The part of `*gin.Context` a handler reads: the query string, the path
parameters and the outcome of `ShouldBindJSON` into a value of type `β`. -/
structure Context (β : Type) where
  query : List (String × String)
  params : List (String × String)
  body : Except String β

/-- Method `c.Query(key)` of gin: the first value of the key, or the empty string. -/
def Context.Query {β : Type} (c : Context β) (key : String) : String :=
  (c.query.lookup key).getD ""

/-- Method `c.Param(key)` of gin: the path parameter, or the empty string. -/
def Context.Param {β : Type} (c : Context β) (key : String) : String :=
  (c.params.lookup key).getD ""

/-- Method `c.ShouldBindJSON(&params)` of gin. -/
def Context.ShouldBindJSON {β : Type} (c : Context β) : Except String β := c.body

/-- A value passed to `c.JSON`. -/
inductive JSON where
  | H (error : String)
  | sessions (s : List main.Session)
  | session (s : main.Session)
  | event (e : main.Event)
deriving DecidableEq

/-- What `c.JSON(status, body)` writes. -/
structure Response where
  status : Nat
  body : JSON
deriving DecidableEq

def StatusOK : Nat := 200
def StatusCreated : Nat := 201
def StatusBadRequest : Nat := 400
def StatusInternalServerError : Nat := 500

/-! ## `recording-api/main.go`: handlers -/

namespace main

/-- The loop `for cursor.Next(ctx) { cursor.Decode(&session) ...; append }`:
the first decoding error stops it. -/
def decodeLoop : List (Except String Session) → List Session → Except String (List Session)
  | [], sessions => .ok sessions
  | .error e :: _, _ => .error e
  | .ok session :: rest, sessions => decodeLoop rest (sessions ++ [session])

def listSessionsHandler {σ : Type} (client : Client σ) (w : World σ) (c : Context Unit) :
    Response × World σ :=
  match Atoi (c.Query "offset") with
  | .error _ =>
    (⟨StatusInternalServerError,
      .H "Offset does not match the format exepected, expected a number."⟩, w)
  | .ok offset =>
  match Atoi (c.Query "limit") with
  | .error _ =>
    (⟨StatusInternalServerError,
      .H "Limit does not match the format expected, expected a number."⟩, w)
  | .ok limit =>
  let clientId := c.Query "clientId"
  let visitorId := c.Query "visitorId"
  match ObjectIDFromHex clientId with
  | .error _ =>
    (⟨StatusInternalServerError,
      .H "Client ID is malformed, does not conform to hex format."⟩, w)
  | .ok clientObjectId =>
  let filter : M := [("clientId", clientObjectId)]
  let filtered : Except Response M :=
    if visitorId ≠ "" then
      match ObjectIDFromHex clientId with
      | .error _ =>
        .error ⟨StatusInternalServerError,
          .H "Visitor ID is malformed, does not conform to hex format."⟩
      | .ok visitorObjectId => .ok (filter.set "visitorId" visitorObjectId)
    else .ok filter
  match filtered with
  | .error r => (r, w)
  | .ok filter =>
  match w.Find client dbName sessionCollection filter limit offset with
  | (.error _, w) => (⟨StatusInternalServerError, .H "Failed to retrieve from db."⟩, w)
  | (.ok cursor, w) =>
  match decodeLoop cursor.docs [] with
  | .error _ => (⟨StatusInternalServerError, .H "Error decoding sessions from db."⟩, w)
  | .ok sessions =>
  match cursor.err with
  | some _ =>
    (⟨StatusInternalServerError, .H "Something went wrong when retrieving the sessions."⟩, w)
  | none => (⟨StatusOK, .sessions sessions⟩, w)

def createSessionHandler {σ : Type} (client : Client σ) (w : World σ) (c : Context Session) :
    Response × World σ :=
  match c.ShouldBindJSON with
  | .error err => (⟨StatusBadRequest, .H err⟩, w)
  | .ok params =>
  if params.ClientID = NilObjectID then
    (⟨StatusBadRequest, .H "Invalid Client Id provided."⟩, w)
  else if params.VisitorID = NilObjectID then
    (⟨StatusBadRequest, .H "Invalid Visitor Id provided."⟩, w)
  else
  match w.Now with
  | (now, w) =>
  let session : Session :=
    { ID := NilObjectID
      ClientID := params.ClientID
      VisitorID := params.VisitorID
      DurationInSeconds := 0
      LastEventTime := now
      CreatedAt := now
      UpdatedAt := now }
  match w.InsertOne client dbName sessionCollection (.session session) with
  | (.error err, w) => (⟨StatusInternalServerError, .H err⟩, w)
  | (.ok insertedID, w) => (⟨StatusCreated, .session { session with ID := insertedID }⟩, w)

def createEventHandler {σ : Type} (client : Client σ) (w : World σ) (c : Context Event) :
    Response × World σ :=
  let sessionId := c.Param "sessionId"
  match ObjectIDFromHex sessionId with
  | .error _ =>
    (⟨StatusInternalServerError,
      .H "Client ID is malformed, does not conform to hex format."⟩, w)
  | .ok sessionObjectId =>
  match c.ShouldBindJSON with
  | .error err => (⟨StatusBadRequest, .H err⟩, w)
  | .ok params =>
  if params.DomEvent = "" then
    (⟨StatusBadRequest, .H "Dom event needs to be provided."⟩, w)
  else
  match w.Now with
  | (now, w) =>
  let event : Event :=
    { ID := NilObjectID
      SessionID := sessionObjectId
      DomEvent := params.DomEvent
      CreatedAt := now }
  match w.InsertOne client dbName eventCollection (.event event) with
  | (.error err, w) => (⟨StatusInternalServerError, .H err⟩, w)
  | (.ok insertedID, w) => (⟨StatusCreated, .event { event with ID := insertedID }⟩, w)

end main

/-! ## `recording-api/session/mongo/mongo_repository.go`: `Store` -/

namespace repository

/-- The receiver `mongoClient`: a collection of a database reached through the client. -/
structure mongoClient (σ : Type) where
  client : Client σ
  database : String
  collection : String

/-- Method `(r *mongoClient) Store`: the three timestamps are three calls of
`time.Now()`, in the order the composite literal lists them. -/
def mongoClient.Store {σ : Type} (r : mongoClient σ) (w : World σ)
    (session : session.SessionCreationParams) : Option String × World σ :=
  match w.Now with
  | (lastEventTime, w) =>
  match w.Now with
  | (createdAt, w) =>
  match w.Now with
  | (updatedAt, w) =>
  let formattedSession : sessionCreationParamsBoilerplate :=
    { ClientId := session.ClientId
      VisitorId := session.VisitorId
      LastEventTime := lastEventTime
      DurationInSeconds := 0
      CreatedAt := createdAt
      UpdatedAt := updatedAt }
  match w.InsertOne r.client r.database r.collection (.boilerplate formattedSession) with
  | (.error err, w) => (some err, w)
  | (.ok _, w) => (none, w)

end repository

/-! ## A reference MongoDB store

An in-memory store behaving as the MongoDB Go driver documents `Find` and
`InsertOne`: a limit of `0` means no limit, a negative limit `-n` returns at
most `n` documents in a single batch, a negative skip is refused by the
server, and an insert without `_id` is given a generated one.  The handlers
are stated over every `Client`; this one instantiates them. -/

namespace Mongo

/-- A stored document with the collection it lives in and its `_id`. -/
structure Record where
  database : String
  collection : String
  id : ObjectID
  doc : Document
deriving DecidableEq

/-- State of the reference store: the records in insertion order and the
counter the next generated `_id` is made from. -/
structure Store where
  records : List Record
  next : Nat
deriving DecidableEq

/-- The generated `_id` number `n`: the twelve big-endian bytes of `n`. -/
def generate (n : Nat) : ObjectID :=
  ⟨(List.range 12).map (fun i => Fin.ofNat (n / 256 ^ (11 - i))), by simp⟩

/-- The `ObjectID` stored under key `k` of a record; fields tagged `omitempty`
are absent when zero. -/
def Record.field (r : Record) (k : String) : Option ObjectID :=
  if k = "_id" then some r.id
  else
    match r.doc with
    | .session s =>
      if k = "clientId" then (if s.ClientID = NilObjectID then none else some s.ClientID)
      else if k = "visitorId" then (if s.VisitorID = NilObjectID then none else some s.VisitorID)
      else none
    | .event e =>
      if k = "sessionId" then (if e.SessionID = NilObjectID then none else some e.SessionID)
      else none
    | .boilerplate _ => none

/-- A record matches a filter when every key of the filter is stored with that value. -/
def matchesFilter (filter : M) (r : Record) : Bool :=
  filter.all (fun kv => r.field kv.1 = some kv.2)

/-- Decoding a record into a `main.Session`: keys the struct does not know are ignored. -/
def decode (r : Record) : main.Session :=
  match r.doc with
  | .session s => { s with ID := r.id }
  | .event e => ⟨r.id, NilObjectID, NilObjectID, 0, 0, e.CreatedAt, 0⟩
  | .boilerplate _ => ⟨r.id, NilObjectID, NilObjectID, 0, 0, 0, 0⟩

/-- The records of a collection that match a filter, in store order. -/
def matching (s : Store) (database collection : String) (filter : M) : List Record :=
  s.records.filter
    (fun r => r.database = database ∧ r.collection = collection ∧ matchesFilter filter r)

/-- The limit of a find: `0` is no limit, otherwise at most `|limit|` documents. -/
def applyLimit (limit : Int) (rs : List Record) : List Record :=
  if limit = 0 then rs else rs.take limit.natAbs

def find (s : Store) (database collection : String) (filter : M) (limit skip : Int) :
    Except String Cursor × Store :=
  if skip < 0 then (.error "skip value must be non-negative", s)
  else
    let found := applyLimit limit ((matching s database collection filter).drop skip.toNat)
    (.ok ⟨found.map (fun r => .ok (decode r)), none⟩, s)

def insertOne (s : Store) (database collection : String) (doc : Document) :
    Except String ObjectID × Store :=
  let given :=
    match doc with
    | .session x => x.ID
    | .event e => e.ID
    | .boilerplate _ => NilObjectID
  let id := if given = NilObjectID then generate s.next else given
  if s.records.any (fun r => r.database = database ∧ r.collection = collection ∧ r.id = id) then
    (.error "E11000 duplicate key error", s)
  else
    (.ok id, { records := s.records ++ [⟨database, collection, id, doc⟩], next := s.next + 1 })

/-- The reference store as a `Client`. -/
def client : Client Store := ⟨find, insertOne⟩

/-- A world over the reference store whose clock reads 1000, 1001, 1002, ... -/
def world (records : List Record) : World Store :=
  { store := ⟨records, 1⟩, clock := fun n => 1000 + n, reads := 0, calls := [] }

end Mongo

/-! ## Concrete requests used as instances -/

namespace Sample

/-- The identifier `507f1f77bcf86cd799439011`. -/
def clientId : ObjectID :=
  ⟨[0x50, 0x7f, 0x1f, 0x77, 0xbc, 0xf8, 0x6c, 0xd7, 0x99, 0x43, 0x90, 0x11], rfl⟩

/-- The identifier `507f191e810c19729de860ea`. -/
def visitorId : ObjectID :=
  ⟨[0x50, 0x7f, 0x19, 0x1e, 0x81, 0x0c, 0x19, 0x72, 0x9d, 0xe8, 0x60, 0xea], rfl⟩

/-- Request `GET /sessions?offset=..&limit=..&clientId=..&visitorId=..`. -/
def listRequest (offset limit clientId visitorId : String) : Context Unit :=
  { query := [("offset", offset), ("limit", limit), ("clientId", clientId),
              ("visitorId", visitorId)],
    params := [], body := .ok () }

/-- Request `GET /sessions?offset=..&limit=..&clientId=..` without `visitorId`. -/
def listRequestNoVisitor (offset limit clientId : String) : Context Unit :=
  { query := [("offset", offset), ("limit", limit), ("clientId", clientId)],
    params := [], body := .ok () }

/-- Request `POST /sessions` whose body binds to the two identifiers. -/
def createRequest (clientId visitorId : ObjectID) : Context main.Session :=
  { query := [], params := [],
    body := .ok ⟨NilObjectID, clientId, visitorId, 0, 0, 0, 0⟩ }

/-- Request `POST /sessions/:sessionId/event` whose body binds to `domEvent`. -/
def eventRequest (sessionId domEvent : String) : Context main.Event :=
  { query := [], params := [("sessionId", sessionId)],
    body := .ok ⟨NilObjectID, NilObjectID, domEvent, 0⟩ }

/-- Two stored sessions of the sample client, with different visitors. -/
def twoSessions : List Mongo.Record :=
  [ ⟨"mydb", "sessions", Mongo.generate 100,
      .session ⟨NilObjectID, clientId, visitorId, 5, 0, 5, 5⟩⟩,
    ⟨"mydb", "sessions", Mongo.generate 101,
      .session ⟨NilObjectID, clientId, clientId, 6, 0, 6, 6⟩⟩ ]

end Sample

/-! ## Theorems: creating a session -/

/-- C5: a create-session request whose body binds to a non-nil clientId and a
non-nil visitorId, with a successful insert, is answered 201 with a session
carrying the request's clientId and visitorId, durationInSeconds 0, one and
the same timestamp in createdAt, updatedAt and lastEventTime, and the id the
insert returned; the record handed to the store (one InsertOne on the sessions
collection) has the same field values, its id still unset. -/
theorem createSession_created {σ : Type} (client : Client σ) (w : World σ)
    (c : Context main.Session) (params : main.Session) (id : ObjectID) (st : σ)
    (hbind : c.ShouldBindJSON = .ok params)
    (hclient : params.ClientID ≠ NilObjectID)
    (hvisitor : params.VisitorID ≠ NilObjectID)
    (hins : client.InsertOne w.store main.dbName main.sessionCollection
      (.session ⟨NilObjectID, params.ClientID, params.VisitorID, w.clock w.reads, 0,
        w.clock w.reads, w.clock w.reads⟩) = (.ok id, st)) :
    ∃ s doc : main.Session,
      (main.createSessionHandler client w c).1 = ⟨StatusCreated, .session s⟩ ∧
      StatusCreated = 201 ∧
      s.ID = id ∧ s.ClientID = params.ClientID ∧ s.VisitorID = params.VisitorID ∧
      s.DurationInSeconds = 0 ∧
      s.CreatedAt = s.UpdatedAt ∧ s.UpdatedAt = s.LastEventTime ∧
      (main.createSessionHandler client w c).2.calls =
        w.calls ++ [Call.InsertOne main.dbName main.sessionCollection (.session doc)] ∧
      (main.createSessionHandler client w c).2.store = st ∧
      doc = { s with ID := NilObjectID } := by
  refine ⟨⟨id, params.ClientID, params.VisitorID, w.clock w.reads, 0, w.clock w.reads,
    w.clock w.reads⟩, ⟨NilObjectID, params.ClientID, params.VisitorID, w.clock w.reads, 0,
    w.clock w.reads, w.clock w.reads⟩, ?_⟩
  simp [main.createSessionHandler, World.Now, World.InsertOne, hbind, hclient, hvisitor, hins,
    StatusCreated]

/-- Instance of C5: the sample request on the empty reference store. -/
theorem createSession_created_witness :
    Sample.clientId ≠ NilObjectID ∧ Sample.visitorId ≠ NilObjectID ∧
    ∃ s doc : main.Session,
      (main.createSessionHandler Mongo.client (Mongo.world [])
        (Sample.createRequest Sample.clientId Sample.visitorId)).1
        = ⟨StatusCreated, .session s⟩ ∧
      StatusCreated = 201 ∧
      s.ID = Mongo.generate 1 ∧ s.ClientID = Sample.clientId ∧
      s.VisitorID = Sample.visitorId ∧
      s.DurationInSeconds = 0 ∧
      s.CreatedAt = s.UpdatedAt ∧ s.UpdatedAt = s.LastEventTime ∧
      (main.createSessionHandler Mongo.client (Mongo.world [])
        (Sample.createRequest Sample.clientId Sample.visitorId)).2.calls =
        [] ++ [Call.InsertOne main.dbName main.sessionCollection (.session doc)] ∧
      (main.createSessionHandler Mongo.client (Mongo.world [])
        (Sample.createRequest Sample.clientId Sample.visitorId)).2.store =
        ⟨[⟨"mydb", "sessions", Mongo.generate 1,
            .session ⟨NilObjectID, Sample.clientId, Sample.visitorId, 1000, 0, 1000, 1000⟩⟩], 2⟩ ∧
      doc = { s with ID := NilObjectID } :=
  ⟨by decide, by decide,
    createSession_created Mongo.client (Mongo.world [])
      (Sample.createRequest Sample.clientId Sample.visitorId)
      ⟨NilObjectID, Sample.clientId, Sample.visitorId, 0, 0, 0, 0⟩ (Mongo.generate 1)
      ⟨[⟨"mydb", "sessions", Mongo.generate 1,
          .session ⟨NilObjectID, Sample.clientId, Sample.visitorId, 1000, 0, 1000, 1000⟩⟩], 2⟩
      rfl (by decide) (by decide) rfl⟩

/-! ## Theorems: requests the handlers reject -/

/-- An `offset` that does not parse stops the list handler before any call. -/
theorem list_reject_offset {σ : Type} (client : Client σ) (w : World σ) (c : Context Unit)
    (e : String) (h : Atoi (c.Query "offset") = .error e) :
    main.listSessionsHandler client w c =
      (⟨500, .H "Offset does not match the format exepected, expected a number."⟩, w) := by
  simp [main.listSessionsHandler, h, StatusInternalServerError]

/-- A `limit` that does not parse stops the list handler before any call. -/
theorem list_reject_limit {σ : Type} (client : Client σ) (w : World σ) (c : Context Unit)
    (e : String) (h : Atoi (c.Query "limit") = .error e) :
    ∃ msg, main.listSessionsHandler client w c = (⟨500, .H msg⟩, w) := by
  cases ho : Atoi (c.Query "offset") with
  | error e0 => exact ⟨_, list_reject_offset client w c e0 ho⟩
  | ok o =>
    exact ⟨_, by simp [main.listSessionsHandler, h, ho, StatusInternalServerError]; rfl⟩

/-- A malformed `clientId` stops the list handler before any call. -/
theorem list_reject_clientId {σ : Type} (client : Client σ) (w : World σ) (c : Context Unit)
    (e : String) (h : ObjectIDFromHex (c.Query "clientId") = .error e) :
    ∃ msg, main.listSessionsHandler client w c = (⟨500, .H msg⟩, w) := by
  cases ho : Atoi (c.Query "offset") with
  | error e0 => exact ⟨_, list_reject_offset client w c e0 ho⟩
  | ok o =>
    cases hl : Atoi (c.Query "limit") with
    | error e1 => exact list_reject_limit client w c e1 hl
    | ok l =>
      exact ⟨_, by simp [main.listSessionsHandler, h, ho, hl, StatusInternalServerError]; rfl⟩

/-- A malformed `sessionId` path parameter stops the event handler before any call. -/
theorem event_reject_sessionId {σ : Type} (client : Client σ) (w : World σ)
    (c : Context main.Event) (e : String)
    (h : ObjectIDFromHex (c.Param "sessionId") = .error e) :
    main.createEventHandler client w c =
      (⟨500, .H "Client ID is malformed, does not conform to hex format."⟩, w) := by
  simp [main.createEventHandler, h, StatusInternalServerError]

/-- A body that does not bind, or binds to a nil clientId or visitorId, stops
the create-session handler with status 400 before any call. -/
theorem createSession_reject {σ : Type} (client : Client σ) (w : World σ)
    (c : Context main.Session)
    (h : (∃ e, c.ShouldBindJSON = .error e) ∨
      ∃ p, c.ShouldBindJSON = .ok p ∧ (p.ClientID = NilObjectID ∨ p.VisitorID = NilObjectID)) :
    ∃ msg, main.createSessionHandler client w c = (⟨400, .H msg⟩, w) := by
  rcases h with ⟨e, he⟩ | ⟨p, hp, hnil⟩
  · exact ⟨e, by simp [main.createSessionHandler, he, StatusBadRequest]⟩
  · by_cases hc : p.ClientID = NilObjectID
    · exact ⟨_, by simp [main.createSessionHandler, hp, hc, StatusBadRequest]; rfl⟩
    · have hv : p.VisitorID = NilObjectID := hnil.resolve_left hc
      exact ⟨_, by simp [main.createSessionHandler, hp, hc, hv, StatusBadRequest]; rfl⟩

/-- With a well-formed `sessionId`, a body that does not bind or binds to an
empty domEvent stops the event handler with status 400 before any call. -/
theorem createEvent_reject_body {σ : Type} (client : Client σ) (w : World σ)
    (c : Context main.Event) (sid : ObjectID)
    (hid : ObjectIDFromHex (c.Param "sessionId") = .ok sid)
    (h : (∃ e, c.ShouldBindJSON = .error e) ∨ ∃ p, c.ShouldBindJSON = .ok p ∧ p.DomEvent = "") :
    ∃ msg, main.createEventHandler client w c = (⟨400, .H msg⟩, w) := by
  rcases h with ⟨e, he⟩ | ⟨p, hp, hd⟩
  · exact ⟨e, by simp [main.createEventHandler, hid, he, StatusBadRequest]⟩
  · exact ⟨_, by simp [main.createEventHandler, hid, hp, hd, StatusBadRequest]; rfl⟩

/-- A character that is not a decimal digit makes the digit loop fail. -/
theorem parseDigits_none (ds : List Char) (n : Nat)
    (h : ∃ ch ∈ ds, ¬ ('0' ≤ ch ∧ ch ≤ '9')) : parseDigits ds n = none := by
  induction ds generalizing n with
  | nil => simp at h
  | cons d rest ih =>
    by_cases hd : '0' ≤ d ∧ d ≤ '9'
    · obtain ⟨ch, hmem, hch⟩ := h
      have hrest : ch ∈ rest := by
        rcases List.mem_cons.mp hmem with heq | hin
        · exact absurd (heq ▸ hd) hch
        · exact hin
      simp only [parseDigits, hd, and_self, if_true]
      exact ih _ ⟨ch, hrest, hch⟩
    · simp only [parseDigits, hd, if_false]

/-- Non-numeric input does not parse: a string holding a character that is
neither a decimal digit nor a sign is refused by Atoi, and so is the empty
string. -/
theorem Atoi_non_numeric (s : String)
    (h : s = "" ∨ ∃ ch ∈ s.data, ¬ ('0' ≤ ch ∧ ch ≤ '9') ∧ ch ≠ '-' ∧ ch ≠ '+') :
    ∃ e, Atoi s = .error e := by
  rcases h with h | ⟨ch, hmem, hdig, hminus, hplus⟩
  · subst h
    exact ⟨_, rfl⟩
  · cases hs : s.data with
    | nil => simp [hs] at hmem
    | cons c rest =>
      rw [hs] at hmem
      have hds : ch ∈ (if c = '-' ∨ c = '+' then rest else c :: rest) := by
        by_cases hc : c = '-' ∨ c = '+'
        · simp only [hc, if_true]
          rcases List.mem_cons.mp hmem with heq | hin
          · rcases hc with hc | hc
            · exact absurd (heq.trans hc) hminus
            · exact absurd (heq.trans hc) hplus
          · exact hin
        · simp only [hc, if_false]
          exact hmem
      have hnone := parseDigits_none _ 0 ⟨ch, hds, hdig⟩
      by_cases hempty : (if c = '-' ∨ c = '+' then rest else c :: rest) = []
      · exact ⟨"strconv.Atoi: invalid syntax", by simp only [Atoi, hs, hempty, if_true]⟩
      · exact ⟨"strconv.Atoi: invalid syntax", by simp only [Atoi, hs, hempty, if_false, hnone]⟩

/-- C2 at the failing input: with clientId 507f1f77bcf86cd799439011 and
visitorId 507f191e810c19729de860ea, both well formed and different, the filter
of the one Find issued binds visitorId to the clientId. -/
theorem visitor_filter_holds_clientId :
    ObjectIDFromHex "507f1f77bcf86cd799439011" = .ok Sample.clientId ∧
    ObjectIDFromHex "507f191e810c19729de860ea" = .ok Sample.visitorId ∧
    Sample.visitorId ≠ Sample.clientId ∧
    (main.listSessionsHandler Mongo.client (Mongo.world Sample.twoSessions)
      (Sample.listRequest "0" "10" "507f1f77bcf86cd799439011" "507f191e810c19729de860ea")).2.calls
      = [Call.Find "mydb" "sessions"
          [("clientId", Sample.clientId), ("visitorId", Sample.clientId)] 10 0] ∧
    (main.listSessionsHandler Mongo.client (Mongo.world Sample.twoSessions)
      (Sample.listRequest "0" "10" "507f1f77bcf86cd799439011" "507f191e810c19729de860ea")).1
      = ⟨200, .sessions [⟨Mongo.generate 101, Sample.clientId, Sample.clientId, 6, 0, 6, 6⟩]⟩ :=
  ⟨rfl, rfl, by decide, by decide, by decide⟩

/-- C3 at the failing input: the visitorId "not-an-id" is malformed, yet the
list handler issues a Find and answers 200. -/
theorem malformed_visitorId_is_queried :
    (∃ e, ObjectIDFromHex "not-an-id" = .error e) ∧
    (main.listSessionsHandler Mongo.client (Mongo.world Sample.twoSessions)
      (Sample.listRequest "0" "10" "507f1f77bcf86cd799439011" "not-an-id")).1.status = 200 ∧
    (main.listSessionsHandler Mongo.client (Mongo.world Sample.twoSessions)
      (Sample.listRequest "0" "10" "507f1f77bcf86cd799439011" "not-an-id")).2.calls
      = [Call.Find "mydb" "sessions"
          [("clientId", Sample.clientId), ("visitorId", Sample.clientId)] 10 0] :=
  ⟨⟨_, rfl⟩, by decide, by decide⟩

/-- The parts of C3 that hold: a malformed clientId of a list request and a
malformed sessionId of an event request are answered with an error response,
the world unchanged. -/
theorem malformed_clientId_or_sessionId_rejected {σ : Type} (client : Client σ) (w : World σ) :
    (∀ (c : Context Unit) (e : String), ObjectIDFromHex (c.Query "clientId") = .error e →
      ∃ msg, main.listSessionsHandler client w c = (⟨500, .H msg⟩, w)) ∧
    (∀ (c : Context main.Event) (e : String),
      ObjectIDFromHex (c.Param "sessionId") = .error e →
      ∃ msg, main.createEventHandler client w c = (⟨500, .H msg⟩, w)) :=
  ⟨fun c e h => list_reject_clientId client w c e h,
   fun c e h => ⟨_, event_reject_sessionId client w c e h⟩⟩

/-- C4, as amended: every rejection for a malformed clientId or sessionId or
for an offset or limit that does not parse carries status 500, every rejection
for a body that does not bind or misses clientId, visitorId or domEvent
carries status 400, and in each case the body is the object with the single
key error. -/
theorem validation_failure_status {σ : Type} (client : Client σ) (w : World σ) :
    (∀ c : Context Unit,
      ((∃ e, Atoi (c.Query "offset") = .error e) ∨ (∃ e, Atoi (c.Query "limit") = .error e) ∨
        (∃ e, ObjectIDFromHex (c.Query "clientId") = .error e)) →
      ∃ msg, (main.listSessionsHandler client w c).1 = ⟨500, .H msg⟩) ∧
    (∀ c : Context main.Event, (∃ e, ObjectIDFromHex (c.Param "sessionId") = .error e) →
      ∃ msg, (main.createEventHandler client w c).1 = ⟨500, .H msg⟩) ∧
    (∀ c : Context main.Session,
      ((∃ e, c.ShouldBindJSON = .error e) ∨
        ∃ p, c.ShouldBindJSON = .ok p ∧
          (p.ClientID = NilObjectID ∨ p.VisitorID = NilObjectID)) →
      ∃ msg, (main.createSessionHandler client w c).1 = ⟨400, .H msg⟩) ∧
    (∀ c : Context main.Event, (∃ sid, ObjectIDFromHex (c.Param "sessionId") = .ok sid) →
      ((∃ e, c.ShouldBindJSON = .error e) ∨ ∃ p, c.ShouldBindJSON = .ok p ∧ p.DomEvent = "") →
      ∃ msg, (main.createEventHandler client w c).1 = ⟨400, .H msg⟩) := by
  refine ⟨?_, ?_, ?_, ?_⟩
  · rintro c (⟨e, h⟩ | ⟨e, h⟩ | ⟨e, h⟩)
    · exact ⟨_, by rw [list_reject_offset client w c e h]⟩
    · obtain ⟨msg, hm⟩ := list_reject_limit client w c e h
      exact ⟨msg, by rw [hm]⟩
    · obtain ⟨msg, hm⟩ := list_reject_clientId client w c e h
      exact ⟨msg, by rw [hm]⟩
  · rintro c ⟨e, h⟩
    exact ⟨_, by rw [event_reject_sessionId client w c e h]⟩
  · intro c h
    obtain ⟨msg, hm⟩ := createSession_reject client w c h
    exact ⟨msg, by rw [hm]⟩
  · rintro c ⟨sid, hid⟩ h
    obtain ⟨msg, hm⟩ := createEvent_reject_body client w c sid hid h
    exact ⟨msg, by rw [hm]⟩

/-- Instance of C4, as amended: the sessionId "xyz" of an event request. -/
theorem validation_failure_status_witness :
    (∃ e, ObjectIDFromHex "xyz" = .error e) ∧
    ∃ msg, (main.createEventHandler Mongo.client (Mongo.world [])
      (Sample.eventRequest "xyz" "click")).1 = ⟨500, .H msg⟩ :=
  ⟨⟨_, rfl⟩,
    (validation_failure_status Mongo.client (Mongo.world [])).2.1
      (Sample.eventRequest "xyz" "click") ⟨_, rfl⟩⟩

/-- C4 fails as stated: the list request with offset "abc" is rejected for a
non-numeric pagination parameter with status 500, outside 400-499. -/
theorem non_numeric_offset_status_500 :
    (∃ e, Atoi "abc" = .error e) ∧
    (main.listSessionsHandler Mongo.client (Mongo.world [])
      (Sample.listRequestNoVisitor "abc" "10" "507f1f77bcf86cd799439011")).1
      = ⟨500, .H "Offset does not match the format exepected, expected a number."⟩ ∧
    ¬ (400 ≤ (main.listSessionsHandler Mongo.client (Mongo.world [])
        (Sample.listRequestNoVisitor "abc" "10" "507f1f77bcf86cd799439011")).1.status ∧
      (main.listSessionsHandler Mongo.client (Mongo.world [])
        (Sample.listRequestNoVisitor "abc" "10" "507f1f77bcf86cd799439011")).1.status ≤ 499) :=
  ⟨⟨_, rfl⟩, by decide, by decide⟩

/-- C6: an event request with a well-formed sessionId whose body binds to an
empty (or absent) domEvent is answered 400 and the world is left as it was:
nothing is inserted, the store is unchanged. -/
theorem createEvent_empty_domEvent {σ : Type} (client : Client σ) (w : World σ)
    (c : Context main.Event) (sid : ObjectID) (params : main.Event)
    (hid : ObjectIDFromHex (c.Param "sessionId") = .ok sid)
    (hbind : c.ShouldBindJSON = .ok params) (hdom : params.DomEvent = "") :
    (main.createEventHandler client w c).1 = ⟨400, .H "Dom event needs to be provided."⟩ ∧
    (main.createEventHandler client w c).2 = w ∧
    (main.createEventHandler client w c).2.calls = w.calls ∧
    (main.createEventHandler client w c).2.store = w.store := by
  simp [main.createEventHandler, hid, hbind, hdom, StatusBadRequest]

/-- Instance of C6: an empty domEvent for a well-formed sessionId. -/
theorem createEvent_empty_domEvent_witness :
    ObjectIDFromHex "507f1f77bcf86cd799439011" = .ok Sample.clientId ∧
    (main.createEventHandler Mongo.client (Mongo.world Sample.twoSessions)
      (Sample.eventRequest "507f1f77bcf86cd799439011" "")).1
      = ⟨400, .H "Dom event needs to be provided."⟩ ∧
    (main.createEventHandler Mongo.client (Mongo.world Sample.twoSessions)
      (Sample.eventRequest "507f1f77bcf86cd799439011" "")).2 = Mongo.world Sample.twoSessions ∧
    (main.createEventHandler Mongo.client (Mongo.world Sample.twoSessions)
      (Sample.eventRequest "507f1f77bcf86cd799439011" "")).2.calls
      = (Mongo.world Sample.twoSessions).calls ∧
    (main.createEventHandler Mongo.client (Mongo.world Sample.twoSessions)
      (Sample.eventRequest "507f1f77bcf86cd799439011" "")).2.store
      = (Mongo.world Sample.twoSessions).store :=
  ⟨rfl,
    createEvent_empty_domEvent Mongo.client (Mongo.world Sample.twoSessions)
      (Sample.eventRequest "507f1f77bcf86cd799439011" "") Sample.clientId
      ⟨NilObjectID, NilObjectID, "", 0⟩ rfl rfl rfl⟩

/-! ## Theorems: identifiers in hexadecimal -/

/-- Each digit of the table decodes to its own index. -/
theorem fromHexChar_hextable (n : Fin 16) : fromHexChar (hextable.getD n.val '0') = some n := by
  revert n
  decide

/-- Decoding undoes encoding. -/
theorem hexDecode_hexEncode (bs : List (Fin 256)) : hexDecode (hexEncode bs) = .ok bs := by
  induction bs with
  | nil => rfl
  | cons v rest ih =>
    have h1 := fromHexChar_hextable ⟨v.val / 16, by omega⟩
    have h2 := fromHexChar_hextable ⟨v.val % 16, by omega⟩
    simp only at h1 h2
    have hb : hexByte ⟨v.val / 16, by omega⟩ ⟨v.val % 16, by omega⟩ = v := by
      apply Fin.ext
      simp only [hexByte]
      omega
    simp only [hexEncode, hexDecode, h1, h2, ih, hb]

/-- Two digits per byte. -/
theorem hexEncode_length (bs : List (Fin 256)) : (hexEncode bs).length = 2 * bs.length := by
  induction bs with
  | nil => rfl
  | cons v rest ih => simp only [hexEncode, List.length_cons, ih]; omega

/-- Copying the twelve bytes of an identifier gives the identifier back. -/
theorem copy12_bytes (id : ObjectID) : copy12 id.bytes = id := by
  cases id with
  | mk bytes size =>
    simp only [copy12, ObjectID.mk.injEq]
    rw [List.take_of_length_le (by omega), size]
    simp

/-- The hexadecimal form of an identifier parses back to the identifier. -/
theorem ObjectIDFromHex_Hex (id : ObjectID) : ObjectIDFromHex id.Hex = .ok id := by
  have hlen : (String.mk (hexEncode id.bytes)).length = 24 := by
    simp only [String.length, hexEncode_length, id.size]
  simp only [ObjectIDFromHex, ObjectID.Hex, hlen, ne_eq, not_true_eq_false, if_false,
    hexDecode_hexEncode, copy12_bytes]

/-! ## Theorems: appending an event to a created session -/

/-- A 201 answer of the create-session handler carries the clock reading taken
by the handler, which is the only one it takes. -/
theorem createSession_created_inv {σ : Type} (client : Client σ) (w : World σ)
    (c : Context main.Session) (s : main.Session)
    (h : (main.createSessionHandler client w c).1 = ⟨StatusCreated, .session s⟩) :
    s.CreatedAt = w.clock w.reads ∧
    (main.createSessionHandler client w c).2.reads = w.reads + 1 ∧
    (main.createSessionHandler client w c).2.clock = w.clock := by
  cases hb : c.ShouldBindJSON with
  | error e => simp [main.createSessionHandler, hb, StatusBadRequest, StatusCreated] at h
  | ok params =>
    by_cases hc : params.ClientID = NilObjectID
    · simp [main.createSessionHandler, hb, hc, StatusBadRequest, StatusCreated] at h
    · by_cases hv : params.VisitorID = NilObjectID
      · simp [main.createSessionHandler, hb, hc, hv, StatusBadRequest, StatusCreated] at h
      · cases hi : client.InsertOne w.store main.dbName main.sessionCollection
            (.session ⟨NilObjectID, params.ClientID, params.VisitorID, w.clock w.reads, 0,
              w.clock w.reads, w.clock w.reads⟩) with
        | mk r st =>
          cases r with
          | error e =>
            simp [main.createSessionHandler, hb, hc, hv, World.Now, World.InsertOne, hi,
              StatusInternalServerError, StatusCreated] at h
          | ok id =>
            simp [main.createSessionHandler, hb, hc, hv, World.Now, World.InsertOne, hi,
              StatusCreated] at h ⊢
            rw [← h]

/-- C7: for a session created through createSessionHandler (answered 201 with
session s) and a later event request on the same clock, a clock that does not
go backwards, whose path parameter is the hexadecimal id of s and whose body
binds to a non-empty domEvent, a successful insert yields 201 with an event
whose id is the inserted one, whose sessionId is the id of s, whose domEvent
is the payload and whose createdAt is at or after the createdAt of s. -/
theorem createEvent_after_createSession {σ : Type} (client : Client σ) (w w2 : World σ)
    (c : Context main.Session) (s : main.Session) (c2 : Context main.Event)
    (params : main.Event) (eid : ObjectID) (st : σ)
    (hmono : Monotone w.clock)
    (hcreate : (main.createSessionHandler client w c).1 = ⟨StatusCreated, .session s⟩)
    (hclock : w2.clock = w.clock)
    (hlater : (main.createSessionHandler client w c).2.reads ≤ w2.reads)
    (hparam : c2.Param "sessionId" = s.ID.Hex)
    (hbind : c2.ShouldBindJSON = .ok params)
    (hdom : params.DomEvent ≠ "")
    (hins : client.InsertOne w2.store main.dbName main.eventCollection
      (.event ⟨NilObjectID, s.ID, params.DomEvent, w2.clock w2.reads⟩) = (.ok eid, st)) :
    ∃ e : main.Event,
      (main.createEventHandler client w2 c2).1 = ⟨StatusCreated, .event e⟩ ∧
      StatusCreated = 201 ∧
      e.ID = eid ∧ e.SessionID = s.ID ∧ e.DomEvent = params.DomEvent ∧
      s.CreatedAt ≤ e.CreatedAt := by
  obtain ⟨hat, hreads, _⟩ := createSession_created_inv client w c s hcreate
  refine ⟨⟨eid, s.ID, params.DomEvent, w2.clock w2.reads⟩, ?_, rfl, rfl, rfl, rfl, ?_⟩
  · simp [main.createEventHandler, hparam, ObjectIDFromHex_Hex, hbind, hdom, World.Now,
      World.InsertOne, hins]
  · show s.CreatedAt ≤ w2.clock w2.reads
    rw [hat, hclock]
    exact hmono (by omega)

/-- Instance of C7: a session created at reading 1000 on the empty reference
store, then the event "click" appended to it at reading 1001. -/
theorem createEvent_after_createSession_witness :
    ∃ e : main.Event,
      (main.createEventHandler Mongo.client
        (main.createSessionHandler Mongo.client (Mongo.world [])
          (Sample.createRequest Sample.clientId Sample.visitorId)).2
        (Sample.eventRequest "000000000000000000000001" "click")).1
        = ⟨StatusCreated, .event e⟩ ∧
      StatusCreated = 201 ∧
      e.ID = Mongo.generate 2 ∧ e.SessionID = Mongo.generate 1 ∧ e.DomEvent = "click" ∧
      1000 ≤ e.CreatedAt :=
  createEvent_after_createSession Mongo.client (Mongo.world [])
    (main.createSessionHandler Mongo.client (Mongo.world [])
      (Sample.createRequest Sample.clientId Sample.visitorId)).2
    (Sample.createRequest Sample.clientId Sample.visitorId)
    ⟨Mongo.generate 1, Sample.clientId, Sample.visitorId, 1000, 0, 1000, 1000⟩
    (Sample.eventRequest "000000000000000000000001" "click")
    ⟨NilObjectID, NilObjectID, "click", 0⟩ (Mongo.generate 2)
    ⟨[⟨"mydb", "sessions", Mongo.generate 1,
        .session ⟨NilObjectID, Sample.clientId, Sample.visitorId, 1000, 0, 1000, 1000⟩⟩,
      ⟨"mydb", "events", Mongo.generate 2,
        .event ⟨NilObjectID, Mongo.generate 1, "click", 1001⟩⟩], 3⟩
    (fun _ _ h => Nat.add_le_add_left h 1000) (by decide) rfl (by decide) (by decide) rfl (by decide) rfl

/-! ## Theorems: pagination and the filter of a list request -/

/-- The decoding loop over documents that all decode collects them in order. -/
theorem decodeLoop_ok (l acc : List main.Session) :
    main.decodeLoop (l.map (fun x => Except.ok x)) acc = .ok (acc ++ l) := by
  induction l generalizing acc with
  | nil => simp [main.decodeLoop]
  | cons x rest ih => simp [main.decodeLoop, ih]

/-- The filter a list request is sent with: the clientId, and under the key
visitorId the clientId once more when a visitorId is given. -/
theorem list_filter (cid : ObjectID) :
    M.set [("clientId", cid)] "visitorId" cid = [("clientId", cid), ("visitorId", cid)] := by
  simp [M.set]

/-- For every client: a list request whose offset, limit and clientId parse
issues exactly one Find, on the sessions collection, with the parsed limit as
limit and the parsed offset as skip. -/
theorem list_issues_find {σ : Type} (client : Client σ) (w : World σ) (c : Context Unit)
    (L O : Int) (cid : ObjectID)
    (ho : Atoi (c.Query "offset") = .ok O) (hl : Atoi (c.Query "limit") = .ok L)
    (hc : ObjectIDFromHex (c.Query "clientId") = .ok cid) :
    (main.listSessionsHandler client w c).2.calls =
      w.calls ++ [Call.Find main.dbName main.sessionCollection
        (if c.Query "visitorId" = "" then [("clientId", cid)]
          else [("clientId", cid), ("visitorId", cid)]) L O] := by
  by_cases hv : c.Query "visitorId" = ""
  · simp only [main.listSessionsHandler, ho, hl, hc, hv, World.Find, ne_eq, not_true_eq_false,
      if_false, if_true]
    split
    · rename_i heq
      simp only [Prod.mk.injEq] at heq
      rw [← heq.2]
    · rename_i heq
      simp only [Prod.mk.injEq] at heq
      split <;> [skip; split] <;> rw [← heq.2]
  · simp only [main.listSessionsHandler, ho, hl, hc, hv, World.Find, ne_eq, not_false_eq_true,
      if_false, if_true, list_filter]
    split
    · rename_i heq
      simp only [Prod.mk.injEq] at heq
      rw [← heq.2]
    · rename_i heq
      simp only [Prod.mk.injEq] at heq
      split <;> [skip; split] <;> rw [← heq.2]

/-- C1, as amended: a list request whose offset or limit does not parse as a
decimal integer (strconv.Atoi fails) is answered with an error response and
the world is left as it was, so no query is issued to the store; an offset
and a limit that parse, whatever their sign, are handed with a well-formed
clientId to one Find as its skip and its limit. -/
theorem listSessions_rejects_unparsed_pagination {σ : Type} (client : Client σ)
    (w : World σ) (c : Context Unit) :
    (((∃ e, Atoi (c.Query "offset") = .error e) ∨ (∃ e, Atoi (c.Query "limit") = .error e)) →
      ∃ msg, (main.listSessionsHandler client w c).1 = ⟨StatusInternalServerError, .H msg⟩ ∧
        (main.listSessionsHandler client w c).2 = w ∧
        (main.listSessionsHandler client w c).2.calls = w.calls) ∧
    (∀ (L O : Int) (cid : ObjectID), Atoi (c.Query "offset") = .ok O →
      Atoi (c.Query "limit") = .ok L → ObjectIDFromHex (c.Query "clientId") = .ok cid →
      ∃ f, (main.listSessionsHandler client w c).2.calls =
        w.calls ++ [Call.Find main.dbName main.sessionCollection f L O]) := by
  constructor
  · rintro (⟨e, he⟩ | ⟨e, he⟩)
    · exact ⟨_, by simp [list_reject_offset client w c e he, StatusInternalServerError]; rfl⟩
    · obtain ⟨msg, hm⟩ := list_reject_limit client w c e he
      exact ⟨msg, by simp [hm, StatusInternalServerError]⟩
  · intro L O cid ho hl hc
    exact ⟨_, list_issues_find client w c L O cid ho hl hc⟩

/-- Instance of C1, as amended: the limit "ten" on the reference store. -/
theorem listSessions_rejects_unparsed_pagination_witness :
    (∃ e, Atoi "ten" = .error e) ∧
    ∃ msg, (main.listSessionsHandler Mongo.client (Mongo.world Sample.twoSessions)
        (Sample.listRequestNoVisitor "0" "ten" "507f1f77bcf86cd799439011")).1
        = ⟨StatusInternalServerError, .H msg⟩ ∧
      (main.listSessionsHandler Mongo.client (Mongo.world Sample.twoSessions)
        (Sample.listRequestNoVisitor "0" "ten" "507f1f77bcf86cd799439011")).2
        = Mongo.world Sample.twoSessions ∧
      (main.listSessionsHandler Mongo.client (Mongo.world Sample.twoSessions)
        (Sample.listRequestNoVisitor "0" "ten" "507f1f77bcf86cd799439011")).2.calls
        = (Mongo.world Sample.twoSessions).calls :=
  ⟨⟨_, rfl⟩,
    (listSessions_rejects_unparsed_pagination Mongo.client (Mongo.world Sample.twoSessions)
      (Sample.listRequestNoVisitor "0" "ten" "507f1f77bcf86cd799439011")).1 (Or.inr ⟨_, rfl⟩)⟩

/-- C1 fails as stated: the limit "-5" is a negative integer, it parses, and
the list handler answers 200 after one Find with limit -5. -/
theorem negative_limit_is_queried :
    Atoi "-5" = .ok (-5) ∧
    (main.listSessionsHandler Mongo.client (Mongo.world Sample.twoSessions)
      (Sample.listRequestNoVisitor "0" "-5" "507f1f77bcf86cd799439011")).1.status = 200 ∧
    (main.listSessionsHandler Mongo.client (Mongo.world Sample.twoSessions)
      (Sample.listRequestNoVisitor "0" "-5" "507f1f77bcf86cd799439011")).2.calls
      = [Call.Find "mydb" "sessions" [("clientId", Sample.clientId)] (-5) 0] :=
  ⟨rfl, by decide, by decide⟩

/-- Over the reference store, the answer to a list request whose offset (not
negative), limit and clientId parse: 200 with the decoded records the store
finds for the filter, limit and skip. -/
theorem list_response_reference (w : World Mongo.Store) (c : Context Unit) (L O : Int)
    (cid : ObjectID) (hO : 0 ≤ O)
    (ho : Atoi (c.Query "offset") = .ok O) (hl : Atoi (c.Query "limit") = .ok L)
    (hc : ObjectIDFromHex (c.Query "clientId") = .ok cid) :
    (main.listSessionsHandler Mongo.client w c).1 =
      ⟨StatusOK, .sessions ((Mongo.applyLimit L
        ((Mongo.matching w.store main.dbName main.sessionCollection
          (if c.Query "visitorId" = "" then [("clientId", cid)]
            else [("clientId", cid), ("visitorId", cid)])).drop O.toNat)).map Mongo.decode)⟩ := by
  have hskip : ¬ O < 0 := by omega
  have hmap : ∀ rs : List Mongo.Record,
      main.decodeLoop (rs.map (fun r => Except.ok (Mongo.decode r))) [] =
        .ok (rs.map Mongo.decode) := by
    intro rs
    have := decodeLoop_ok (rs.map Mongo.decode) []
    simpa [List.map_map, Function.comp_def] using this
  by_cases hv : c.Query "visitorId" = ""
  · simp [main.listSessionsHandler, ho, hl, hc, hv, World.Find, Mongo.client, Mongo.find, hskip,
      hmap]
  · simp [main.listSessionsHandler, ho, hl, hc, hv, World.Find, Mongo.client, Mongo.find, hskip,
      hmap, list_filter]

/-- C8, as amended: a list request with limit L and offset O, both parsed, O
not negative (L positive or 0 below), and a well-formed clientId issues one Find with exactly L as
limit and O as skip and a filter that binds clientId; over the reference
store the answer is 200 with the matching records in store order after the
first O, at most L of them when L is positive and all of them when L is 0. -/
theorem listSessions_pagination (w : World Mongo.Store) (c : Context Unit) (L O : Int)
    (cid : ObjectID) (hO : 0 ≤ O)
    (ho : Atoi (c.Query "offset") = .ok O) (hl : Atoi (c.Query "limit") = .ok L)
    (hc : ObjectIDFromHex (c.Query "clientId") = .ok cid) :
    ∃ (f : M) (found : List Mongo.Record),
      (main.listSessionsHandler Mongo.client w c).2.calls =
        w.calls ++ [Call.Find main.dbName main.sessionCollection f L O] ∧
      f.lookup "clientId" = some cid ∧
      (main.listSessionsHandler Mongo.client w c).1 =
        ⟨StatusOK, .sessions (found.map Mongo.decode)⟩ ∧
      StatusOK = 200 ∧
      (0 < L → found = ((Mongo.matching w.store main.dbName main.sessionCollection f).drop
          O.toNat).take L.toNat ∧ (found.length : Int) ≤ L) ∧
      (L = 0 → found = (Mongo.matching w.store main.dbName main.sessionCollection f).drop
          O.toNat) := by
  refine ⟨_, _, list_issues_find Mongo.client w c L O cid ho hl hc, ?_,
    list_response_reference w c L O cid hO ho hl hc, rfl, ?_, ?_⟩
  · split <;> simp [List.lookup]
  · intro hpos
    have hne : L ≠ 0 := by omega
    have hnat : L.natAbs = L.toNat := by omega
    refine ⟨by simp [Mongo.applyLimit, hne, hnat], ?_⟩
    simp only [Mongo.applyLimit, hne, if_false, List.length_take]
    omega
  · intro hzero
    simp [Mongo.applyLimit, hzero]

/-- Instance of C8, as amended: limit 1 and offset 1 over two stored sessions. -/
theorem listSessions_pagination_witness :
    ∃ (f : M) (found : List Mongo.Record),
      (main.listSessionsHandler Mongo.client (Mongo.world Sample.twoSessions)
        (Sample.listRequestNoVisitor "1" "1" "507f1f77bcf86cd799439011")).2.calls =
        (Mongo.world Sample.twoSessions).calls ++
          [Call.Find main.dbName main.sessionCollection f 1 1] ∧
      f.lookup "clientId" = some Sample.clientId ∧
      (main.listSessionsHandler Mongo.client (Mongo.world Sample.twoSessions)
        (Sample.listRequestNoVisitor "1" "1" "507f1f77bcf86cd799439011")).1 =
        ⟨StatusOK, .sessions (found.map Mongo.decode)⟩ ∧
      StatusOK = 200 ∧
      ((0 : Int) < 1 → found = ((Mongo.matching (Mongo.world Sample.twoSessions).store main.dbName
          main.sessionCollection f).drop (1 : Int).toNat).take (1 : Int).toNat ∧
          (found.length : Int) ≤ 1) ∧
      ((1 : Int) = 0 → found = (Mongo.matching (Mongo.world Sample.twoSessions).store main.dbName
          main.sessionCollection f).drop (1 : Int).toNat) :=
  listSessions_pagination (Mongo.world Sample.twoSessions)
    (Sample.listRequestNoVisitor "1" "1" "507f1f77bcf86cd799439011") 1 1 Sample.clientId
    (by decide) rfl rfl rfl

/-- C8 fails as stated: with limit 0 and two stored sessions of the client the
answer holds both sessions, not an empty sequence. -/
theorem limit_zero_returns_all :
    Atoi "0" = .ok 0 ∧
    (main.listSessionsHandler Mongo.client (Mongo.world Sample.twoSessions)
      (Sample.listRequestNoVisitor "0" "0" "507f1f77bcf86cd799439011")).2.calls
      = [Call.Find "mydb" "sessions" [("clientId", Sample.clientId)] 0 0] ∧
    (main.listSessionsHandler Mongo.client (Mongo.world Sample.twoSessions)
      (Sample.listRequestNoVisitor "0" "0" "507f1f77bcf86cd799439011")).1
      = ⟨200, .sessions
          [ ⟨Mongo.generate 100, Sample.clientId, Sample.visitorId, 5, 0, 5, 5⟩,
            ⟨Mongo.generate 101, Sample.clientId, Sample.clientId, 6, 0, 6, 6⟩ ]⟩ :=
  ⟨rfl, by decide, by decide⟩

/-! ## Theorems: the repository and the service -/

/-- For every client: Store issues exactly one InsertOne, of a record with the
params' ClientId and VisitorId, DurationInSeconds 0 and three successive clock
readings as LastEventTime, CreatedAt and UpdatedAt, and returns the error of
the insert, or none. -/
theorem Store_inserts_once {σ : Type} (r : repository.mongoClient σ) (w : World σ)
    (p : session.SessionCreationParams) :
    (r.Store w p).2.calls =
      w.calls ++ [Call.InsertOne r.database r.collection
        (.boilerplate ⟨p.ClientId, p.VisitorId, w.clock w.reads, 0, w.clock (w.reads + 1),
          w.clock (w.reads + 2)⟩)] ∧
    (r.Store w p).1 =
      (match (r.client.InsertOne w.store r.database r.collection
        (.boilerplate ⟨p.ClientId, p.VisitorId, w.clock w.reads, 0, w.clock (w.reads + 1),
          w.clock (w.reads + 2)⟩)).1 with
       | .error err => some err
       | .ok _ => none) := by
  simp only [repository.mongoClient.Store, World.Now, World.InsertOne]
  split <;> rename_i heq <;> simp only [Prod.mk.injEq] at heq <;>
    refine ⟨by rw [← heq.2], by rw [heq.1]⟩

/-- C9 at the failing input: on a clock that reads 1000 and advances by one at
each read, Store hands the store a record whose LastEventTime is 1000, whose
CreatedAt is 1001 and whose UpdatedAt is 1002. -/
theorem Store_timestamps_differ :
    ((⟨Mongo.client, "mydb", "sessions"⟩ : repository.mongoClient Mongo.Store).Store
      (Mongo.world []) ⟨"507f1f77bcf86cd799439011", "507f191e810c19729de860ea"⟩).2.calls
      = [Call.InsertOne "mydb" "sessions"
          (.boilerplate
            ⟨"507f1f77bcf86cd799439011", "507f191e810c19729de860ea", 1000, 0, 1001, 1002⟩)] :=
  by decide

/-- The four methods of the service that type-check hand their argument to the
repository method of the same name and return what it returns. -/
theorem service_pass_through {ρ : Type} (r : session.SessionRepository ρ) (st : ρ) :
    (∀ id, (session.NewSessionService r).FindById st id = r.FindById st id) ∧
    (∀ id, (session.NewSessionService r).FindAllByClientId st id = r.FindAllByClientId st id) ∧
    (∀ s, (session.NewSessionService r).Update st s = r.Update st s) ∧
    (∀ id, (session.NewSessionService r).Delete st id = r.Delete st id) :=
  ⟨fun _ => rfl, fun _ => rfl, fun _ => rfl, fun _ => rfl⟩

/-- C10 at the failing method: Store is declared on a pointer to Session in
the service interface and in its implementation, and on a pointer to
SessionCreationParams in the repository interface; the other four methods
have equal parameter and result types. -/
theorem Store_parameter_types_differ :
    session.paramsOf session.SessionService_methods "Store" = some [.ptr "Session"] ∧
    session.paramsOf session.SessionServiceImpl_methods "Store" = some [.ptr "Session"] ∧
    session.paramsOf session.SessionRepository_methods "Store"
      = some [.ptr "SessionCreationParams"] ∧
    session.paramsOf session.SessionService_methods "Store"
      ≠ session.paramsOf session.SessionRepository_methods "Store" ∧
    (∀ name ∈ ["FindById", "FindAllByClientId", "Update", "Delete"],
      session.paramsOf session.SessionService_methods name
        = session.paramsOf session.SessionRepository_methods name ∧
      session.resultsOf session.SessionService_methods name
        = session.resultsOf session.SessionRepository_methods name) := by
  decide

end Recording
